import Mathlib

/-!
Verification of the request-building logic of the `tpryan/openmeteogo`
Go client for the Open-Meteo weather API.

The repository contains several revisions of the library.  This file embeds:

* the `openmeteogo` revision of `units.go` (namespace `V2`): the `Client.url`
  builder with the 90-day forecast history limit, `url.Values`-style sorted
  query encoding, integer-enum unit types with a `String()` rendering
  (from the unit-type revision those checks compile against), and `Get`;
* the head revision documented in `docs/features/marine.md` together with
  `options.go` (namespace `Head`): string-typed unit fields, the shared
  `encodeCommonOptions` query section, and the `url` / `seasonalUrl` /
  `marineUrl` builders, plus a model of the unified routing `url` exercised
  by `TestURL_Seasonal` / `TestURL_Marine` (that revision of the routing
  function itself is not part of the sources);
* the `orderedQuery` encoder of the `openmateo` revision;
* `DescribeCode` / `WeatherCodeMap` and `NewMetrics` with their metric lists.

Go values are modelled as follows: `time.Time` is an instant in nanoseconds
(`GoTime`), `time.Duration` an `Int` of nanoseconds, `float64` by its
`fmt %v` rendering (`GoFloat`; the builders only ever format coordinates),
strings as Lean `String` (all strings involved are ASCII), and nil-able
metric slices as `Option (List String)`.
-/

/-- A Go `time.Duration`: a count of nanoseconds. -/
abbrev GoDuration := Int

/-- A Go `time.Time` instant, as nanoseconds since the Unix epoch
(sufficient for the library, which never inspects monotonic clocks or
locations other than via `Location.String`). -/
structure GoTime where
  unixNano : Int

/-- Unix nanoseconds of Go's zero `time.Time`, January 1 of year 1 UTC. -/
def goZeroUnixNano : Int := -62135596800000000000

/-- `time.Time.IsZero`: the instant equals Go's zero time. -/
def GoTime.isZero (t : GoTime) : Bool := t.unixNano == goZeroUnixNano

/-- The zero `time.Time`. -/
def goZeroTime : GoTime := ⟨goZeroUnixNano⟩

/-- `time.Since(t)` evaluated at the instant `now`: `now - t`. -/
def timeSince (now t : GoTime) : GoDuration := now.unixNano - t.unixNano

/-- A Go `float64`, represented by the decimal string `fmt.Sprintf("%v", x)`
produces for it (the shortest round-trip rendering, injective on floats).
The request builders use coordinates only through this rendering. -/
structure GoFloat where
  render : String

/-- `fmt.Sprintf("%v", i)` for a Go `int`. -/
def intToGoString (i : Int) : String := toString i

/-- Zero-pad a number to two digits, as `time.Format("01")`/`("02")` do. -/
def pad2 (n : Nat) : String := if n < 10 then "0" ++ toString n else toString n

/-- Zero-pad a year to four digits, as `time.Format("2006")` does. -/
def pad4 (n : Nat) : String :=
  if n < 10 then "000" ++ toString n
  else if n < 100 then "00" ++ toString n
  else if n < 1000 then "0" ++ toString n
  else toString n

/-- Proleptic-Gregorian civil date from a count of days since the Unix epoch
(the calendar Go's `time` package uses), returning `(year, month, day)`. -/
def civilFromDays (z0 : Int) : Int × Nat × Nat :=
  let z := z0 + 719468
  let era := Int.fdiv z 146097
  let doe := (z - era * 146097).toNat
  let yoe := (doe - doe / 1460 + doe / 36524 - doe / 146096) / 365
  let y := (yoe : Int) + era * 400
  let doy := doe - (365 * yoe + yoe / 4 - yoe / 100)
  let mp := (5 * doy + 2) / 153
  let d := doy - (153 * mp + 2) / 5 + 1
  let m := if mp < 10 then mp + 3 else mp - 9
  (if m ≤ 2 then y + 1 else y, m, d)

/-- `t.Format("2006-01-02")` for an instant taken in UTC. -/
def formatDate (t : GoTime) : String :=
  let days := Int.fdiv t.unixNano 86400000000000
  let c := civilFromDays days
  pad4 c.1.toNat ++ "-" ++ pad2 c.2.1 ++ "-" ++ pad2 c.2.2

/-- `strings.Join(elems, sep)`. -/
def stringsJoin : List String → String → String
  | [], _ => ""
  | [a], _ => a
  | a :: b :: rest, sep => a ++ sep ++ stringsJoin (b :: rest) sep

/-- A metric name, an opaque string key of the upstream API (`type Metric string`). -/
abbrev Metric := String

/-- `type Metrics []Metric`. -/
abbrev Metrics := List Metric

/-- `Metrics.encode`: the metric strings joined by commas, in order
(`strings.Join` over the slice, `options.go`). -/
def Metrics.encode (m : Metrics) : String := stringsJoin m ","

/-- Byte-wise (here: character-wise, all strings being ASCII) lexicographic
comparison of character lists, mirroring Go's `<` on strings. -/
def charListLt : List Char → List Char → Bool
  | [], [] => false
  | [], _ :: _ => true
  | _ :: _, [] => false
  | a :: as, b :: bs =>
    if a < b then true
    else if b < a then false
    else charListLt as bs

/-- Go's `<` on strings (byte-wise; identical to character order on ASCII). -/
def strLt (a b : String) : Bool := charListLt a.toList b.toList

/-- Insert a key-value pair into a list sorted by key (ascending). -/
def insertPair (p : String × String) : List (String × String) → List (String × String)
  | [] => [p]
  | q :: rest => if strLt q.1 p.1 then q :: insertPair p rest else p :: q :: rest

/-- Sort key-value pairs by key ascending, mirroring the `sort.Strings(keys)`
step of `url.Values.Encode` (each key occurs at most once in this library). -/
def sortPairs : List (String × String) → List (String × String)
  | [] => []
  | p :: rest => insertPair p (sortPairs rest)

/-- Upper-case hexadecimal digit, as used by Go's percent-encoding. -/
def hexDigit (n : Nat) : Char :=
  if n < 10 then Char.ofNat (48 + n) else Char.ofNat (55 + n)

/-- Escape one character as `net/url.QueryEscape` does: ASCII letters, digits
and `-_.~` are kept, a space becomes `+`, anything else becomes `%XX`
(per byte in Go; all strings this library escapes are ASCII). -/
def escapeChar (ch : Char) : String :=
  if ('a' ≤ ch && ch ≤ 'z') || ('A' ≤ ch && ch ≤ 'Z') ||
     ('0' ≤ ch && ch ≤ '9') || ch = '-' || ch = '_' || ch = '.' || ch = '~' then
    String.singleton ch
  else if ch = ' ' then "+"
  else "%" ++ String.singleton (hexDigit (ch.toNat / 16)) ++
       String.singleton (hexDigit (ch.toNat % 16))

/-- `net/url.QueryEscape` (ASCII model). -/
def queryEscape (s : String) : String := String.join (s.toList.map escapeChar)

/-- `url.Values.Encode`: pairs sorted by key, each rendered
`escape(k)=escape(v)`, joined with `&`. -/
def encodePairs (l : List (String × String)) : String :=
  stringsJoin ((sortPairs l).map (fun p => queryEscape p.1 ++ "=" ++ queryEscape p.2)) "&"

/-- The components of a `net/url.URL` as the builders fill them in. -/
structure URL where
  scheme : String
  host : String
  path : String
  rawQuery : String

/-- `url.URL.String` for the URLs this library builds (clean ASCII host and
path; the `?` is omitted when the query is empty). -/
def URL.render (u : URL) : String :=
  u.scheme ++ "://" ++ u.host ++ u.path ++
    (if u.rawQuery = "" then "" else "?" ++ u.rawQuery)

/-- A conditional single-pair query section: one `q.Set(key, val)` guarded by
a condition, as the builders do for every optional parameter. -/
def kvIf (c : Prop) [Decidable c] (key val : String) : List (String × String) :=
  if c then [(key, val)] else []

/-- The query section for one nil-able metric slice: skipped when the slice
is nil (`none`) or encodes to the empty string, else one pair under `key`. -/
def kvMetrics (m : Option Metrics) (key : String) : List (String × String) :=
  match m with
  | some l => if Metrics.encode l ≠ "" then [(key, Metrics.encode l)] else []
  | none => []

/-- All pairs of `l` whose key is `k` (used to state which keys a built
query contains and with which values). -/
def filterKey (l : List (String × String)) (k : String) : List (String × String) :=
  l.filter (fun p => p.1 == k)

namespace V2

/-- `defaultHost` of `units.go`. -/
def defaultHost : String := "api.open-meteo.com"

/-- `defaultScheme` of `units.go`. -/
def defaultScheme : String := "https"

/-- `forecastHistoryLimit = 90 * 24 * time.Hour` of `units.go`, in nanoseconds. -/
def forecastHistoryLimit : GoDuration := 90 * 24 * 3600 * 1000000000

/-- `DefaultUserAgent` of `units.go`. -/
def DefaultUserAgent : String := "OpenMeteoGo-Client"

/-- `type TemperatureUnit int64` with `Celsius = iota`, `Fahrenheit`. -/
abbrev TemperatureUnit := Int

/-- `Celsius`, the zero value and default. -/
def Celsius : TemperatureUnit := 0

/-- `Fahrenheit`. -/
def Fahrenheit : TemperatureUnit := 1

/-- `TemperatureUnit.String()`. -/
def TemperatureUnit.render (t : TemperatureUnit) : String :=
  if t = 0 then "celsius" else if t = 1 then "fahrenheit" else "unknown"

/-- `type WindSpeedUnit int64` with `KMH = iota`, `MS`, `MPH`, `KN`. -/
abbrev WindSpeedUnit := Int

/-- `KMH`, the zero value and default. -/
def KMH : WindSpeedUnit := 0

/-- `MS`. -/
def MS : WindSpeedUnit := 1

/-- `MPH`. -/
def MPH : WindSpeedUnit := 2

/-- `KN`. -/
def KN : WindSpeedUnit := 3

/-- `WindSpeedUnit.String()`. -/
def WindSpeedUnit.render (w : WindSpeedUnit) : String :=
  if w = 0 then "kmh" else if w = 1 then "ms"
  else if w = 2 then "mph" else if w = 3 then "kn" else "unknown"

/-- `type PrecipitationUnit int64` with `MM = iota`, `IN`. -/
abbrev PrecipitationUnit := Int

/-- `MM`, the zero value and default. -/
def MM : PrecipitationUnit := 0

/-- `IN`. -/
def IN : PrecipitationUnit := 1

/-- `PrecipitationUnit.String()`. -/
def PrecipitationUnit.render (p : PrecipitationUnit) : String :=
  if p = 0 then "mm" else if p = 1 then "in" else "unknown"

/-- The fields of `Options` read by this revision's `Client.url`
(`Timezone` appears only through `Location.String()`, modelled as that
string, `""` for the zero location; `End` is named `endTime` as `end` is
reserved in Lean). -/
structure Options where
  latitude : GoFloat
  longitude : GoFloat
  temperatureUnit : TemperatureUnit
  windspeedUnit : WindSpeedUnit
  precipitationUnit : PrecipitationUnit
  timezone : String
  pastDays : Int
  forcastDays : Int
  start : GoTime
  endTime : GoTime
  hourlyMetrics : Option Metrics
  dailyMetrics : Option Metrics
  currentMetrics : Option Metrics

/-- An `Options` with only `Latitude` and `Longitude` set and every other
field at its Go zero value. -/
def Options.onlyCoords (lat lon : GoFloat) : Options :=
  { latitude := lat, longitude := lon,
    temperatureUnit := 0, windspeedUnit := 0, precipitationUnit := 0,
    timezone := "", pastDays := 0, forcastDays := 0,
    start := goZeroTime, endTime := goZeroTime,
    hourlyMetrics := none, dailyMetrics := none, currentMetrics := none }

/-- `Client` of `units.go` (the `http.Client` handle is outside the model). -/
structure Client where
  UserAgent : String
  apiKey : String
  scheme : String
  host : String

/-- `NewClient()`. -/
def NewClient : Client :=
  { UserAgent := DefaultUserAgent, apiKey := "",
    scheme := defaultScheme, host := defaultHost }

/-- `NewClientWithKey(key)`. -/
def NewClientWithKey (key : String) : Client :=
  { UserAgent := DefaultUserAgent, apiKey := key,
    scheme := defaultScheme, host := defaultHost }

/-- `isHistorical := !o.Start.IsZero() && time.Since(o.Start) > forecastHistoryLimit`. -/
def Client.isHistorical (o : Options) (now : GoTime) : Bool :=
  (!o.start.isZero) && (decide (forecastHistoryLimit < timeSince now o.start))

/-- The host after the archive step of `url` (before the `customer-` step). -/
def Client.selectedHost (c : Client) (o : Options) (now : GoTime) : String :=
  if Client.isHistorical o now then "archive-" ++ c.host else c.host

/-- The path chosen by `url`. -/
def Client.urlPath (o : Options) (now : GoTime) : String :=
  if Client.isHistorical o now then "/v1/archive" else "/v1/forecast"

/-- The `customer-` step of `url`: the host is prefixed when an API key is set. -/
def Client.withCustomer (c : Client) (h : String) : String :=
  if c.apiKey ≠ "" then "customer-" ++ h else h

/-- The final host of the URL built by `url`. -/
def Client.urlHost (c : Client) (o : Options) (now : GoTime) : String :=
  c.withCustomer (c.selectedHost o now)

/-- The query pairs `url` sets, in `q.Set` order (`url.Values.Encode`
sorts them by key afterwards). -/
def Client.queryPairs (c : Client) (o : Options) : List (String × String) :=
  kvIf (c.apiKey ≠ "") "apikey" c.apiKey
  ++ [("latitude", o.latitude.render), ("longitude", o.longitude.render)]
  ++ kvIf (0 < o.temperatureUnit) "temperature_unit" o.temperatureUnit.render
  ++ kvIf (0 < o.windspeedUnit) "windspeed_unit" o.windspeedUnit.render
  ++ kvIf (0 < o.precipitationUnit) "precipitation_unit" o.precipitationUnit.render
  ++ kvIf (o.timezone ≠ "") "timezone" o.timezone
  ++ kvIf (0 < o.pastDays) "past_days" (intToGoString o.pastDays)
  ++ kvIf (o.start.isZero = false) "start_date" (formatDate o.start)
  ++ kvIf (o.endTime.isZero = false) "end_date" (formatDate o.endTime)
  ++ kvMetrics o.hourlyMetrics "hourly"
  ++ kvMetrics o.dailyMetrics "daily"
  ++ kvIf (0 < o.forcastDays) "forecast_days" (intToGoString o.forcastDays)
  ++ kvMetrics o.currentMetrics "current"

/-- `Client.url` of `units.go`: scheme, host, path and the sorted encoded
query assembled into one URL string (`now` makes the `time.Now()` read
explicit). -/
def Client.url (c : Client) (o : Options) (now : GoTime) : String :=
  URL.render
    { scheme := c.scheme, host := c.urlHost o now, path := Client.urlPath o now,
      rawQuery := encodePairs (c.queryPairs o) }

end V2

namespace Head

/-- `Celsius TemperatureUnit = "celsius"` (string-typed units of the head
revision of `units.go`). -/
def Celsius : String := "celsius"

/-- `Fahrenheit TemperatureUnit = "fahrenheit"`. -/
def Fahrenheit : String := "fahrenheit"

/-- `KMH WindSpeedUnit = "kmh"`. -/
def KMH : String := "kmh"

/-- `MS WindSpeedUnit = "ms"`. -/
def MS : String := "ms"

/-- `MPH WindSpeedUnit = "mph"`. -/
def MPH : String := "mph"

/-- `KN WindSpeedUnit = "kn"`. -/
def KN : String := "kn"

/-- `MM PrecipitationUnit = "mm"`. -/
def MM : String := "mm"

/-- `IN PrecipitationUnit = "in"`. -/
def IN : String := "in"

/-- `forecastHistoryLimit = 7 * 24 * time.Hour` of the head revision, in
nanoseconds. -/
def forecastHistoryLimit : GoDuration := 7 * 24 * 3600 * 1000000000

/-- `seasonalHost` constant. -/
def seasonalHostDefault : String := "seasonal-api.open-meteo.com"

/-- `marineHost` constant. -/
def marineHostDefault : String := "marine-api.open-meteo.com"

/-- The `Options` of the head revision (`options.go` plus the `Marine`
flag its url tests set through `OptionsBuilder.Marine`): string-typed unit
fields, weather-model identifiers, metric slices for all five intervals and
the explicit `Seasonal` / `Marine` flags. -/
structure Options where
  latitude : GoFloat
  longitude : GoFloat
  temperatureUnit : String
  windspeedUnit : String
  precipitationUnit : String
  timezone : String
  pastDays : Int
  forcastDays : Int
  start : GoTime
  endTime : GoTime
  models : List String
  hourlyMetrics : Option Metrics
  dailyMetrics : Option Metrics
  weeklyMetrics : Option Metrics
  monthlyMetrics : Option Metrics
  currentMetrics : Option Metrics
  seasonal : Bool
  marine : Bool

/-- `NewOptionsBuilder().Build()`: the all-zero `Options`. -/
def Options.zero : Options :=
  { latitude := ⟨"0"⟩, longitude := ⟨"0"⟩,
    temperatureUnit := "", windspeedUnit := "", precipitationUnit := "",
    timezone := "", pastDays := 0, forcastDays := 0,
    start := goZeroTime, endTime := goZeroTime, models := [],
    hourlyMetrics := none, dailyMetrics := none, weeklyMetrics := none,
    monthlyMetrics := none, currentMetrics := none,
    seasonal := false, marine := false }

/-- The head `Client`: API key, scheme and the three hosts
(`TestClient_Get_Seasonal` / `TestClient_Get_Marine` override `scheme`,
`host`, `seasonalHost` and `marineHost` per client, so the head revision
carries them as fields defaulted to the package constants). -/
structure Client where
  UserAgent : String
  apiKey : String
  scheme : String
  host : String
  seasonalHost : String
  marineHost : String

/-- `NewClient()` of the head revision. -/
def NewClient : Client :=
  { UserAgent := "OpenMeteoGo-Client", apiKey := "",
    scheme := "https", host := "api.open-meteo.com",
    seasonalHost := seasonalHostDefault, marineHost := marineHostDefault }

/-- `NewClientWithKey(key)` of the head revision. -/
def NewClientWithKey (key : String) : Client :=
  { NewClient with apiKey := key }

/-- `customer-` prefixing shared by all head builders. -/
def Client.withCustomer (c : Client) (h : String) : String :=
  if c.apiKey ≠ "" then "customer-" ++ h else h

/-- `encodeCommonOptions` (marine.md): the query section shared by the
forecast, archive, seasonal and marine builders. -/
def Client.commonPairs (c : Client) (o : Options) : List (String × String) :=
  kvIf (c.apiKey ≠ "") "apikey" c.apiKey
  ++ [("latitude", o.latitude.render), ("longitude", o.longitude.render)]
  ++ kvIf (o.temperatureUnit ≠ "") "temperature_unit" o.temperatureUnit
  ++ kvIf (o.windspeedUnit ≠ "") "windspeed_unit" o.windspeedUnit
  ++ kvIf (o.precipitationUnit ≠ "") "precipitation_unit" o.precipitationUnit
  ++ kvIf (o.timezone ≠ "") "timezone" o.timezone
  ++ kvIf (o.start.isZero = false) "start_date" (formatDate o.start)
  ++ kvIf (o.endTime.isZero = false) "end_date" (formatDate o.endTime)

/-- The query pairs of the head forecast/archive `url`. -/
def Client.urlPairs (c : Client) (o : Options) : List (String × String) :=
  c.commonPairs o
  ++ kvIf (0 < o.pastDays) "past_days" (intToGoString o.pastDays)
  ++ kvIf (0 < o.forcastDays) "forecast_days" (intToGoString o.forcastDays)
  ++ kvMetrics o.hourlyMetrics "hourly"
  ++ kvMetrics o.dailyMetrics "daily"
  ++ kvMetrics o.currentMetrics "current"

/-- `isHistorical` of the head `url` (7-day limit). -/
def Client.isHistorical (o : Options) (now : GoTime) : Bool :=
  (!o.start.isZero) && (decide (forecastHistoryLimit < timeSince now o.start))

/-- Head forecast/archive `url` (marine.md). -/
def Client.url (c : Client) (o : Options) (now : GoTime) : String :=
  URL.render
    { scheme := c.scheme,
      host := c.withCustomer
        (if Client.isHistorical o now then "archive-" ++ c.host else c.host),
      path := if Client.isHistorical o now then "/v1/archive" else "/v1/forecast",
      rawQuery := encodePairs (c.urlPairs o) }

/-- The query pairs of `seasonalUrl`. -/
def Client.seasonalPairs (c : Client) (o : Options) : List (String × String) :=
  c.commonPairs o
  ++ kvIf (0 < o.models.length) "models" (stringsJoin o.models ",")
  ++ kvMetrics o.hourlyMetrics "hourly"
  ++ kvMetrics o.dailyMetrics "daily"
  ++ kvMetrics o.weeklyMetrics "weekly"
  ++ kvMetrics o.monthlyMetrics "monthly"

/-- `seasonalUrl` (marine.md, the seasonal host taken from the client as the
head tests require; at defaults it is the `seasonal-api.open-meteo.com`
constant of marine.md). -/
def Client.seasonalUrl (c : Client) (o : Options) : String :=
  URL.render
    { scheme := c.scheme, host := c.withCustomer c.seasonalHost,
      path := "/v1/seasonal", rawQuery := encodePairs (c.seasonalPairs o) }

/-- The query pairs of `marineUrl`. -/
def Client.marinePairs (c : Client) (o : Options) : List (String × String) :=
  c.commonPairs o
  ++ kvIf (0 < o.models.length) "models" (stringsJoin o.models ",")
  ++ kvIf (0 < o.pastDays) "past_days" (intToGoString o.pastDays)
  ++ kvIf (0 < o.forcastDays) "forecast_days" (intToGoString o.forcastDays)
  ++ kvMetrics o.hourlyMetrics "hourly"
  ++ kvMetrics o.dailyMetrics "daily"
  ++ kvMetrics o.currentMetrics "current"

/-- `marineUrl` (marine.md, marine host per client as the head tests require). -/
def Client.marineUrl (c : Client) (o : Options) : String :=
  URL.render
    { scheme := c.scheme, host := c.withCustomer c.marineHost,
      path := "/v1/marine", rawQuery := encodePairs (c.marinePairs o) }

/-- A non-nil, non-empty weekly metric slice. -/
def hasWeekly (o : Options) : Bool :=
  match o.weeklyMetrics with
  | some (_ :: _) => true
  | _ => false

/-- A non-nil, non-empty monthly metric slice. -/
def hasMonthly (o : Options) : Bool :=
  match o.monthlyMetrics with
  | some (_ :: _) => true
  | _ => false

/-- Modelled from the spec: the head revision's unified `Client.url` with
seasonal/marine routing is absent from src (only `TestURL_Seasonal`,
`TestURL_Marine`, the `Get` tests and the marine.md builders exist).  The
spec's host table ("plain forecast host, archive-, seasonal-, marine-")
and those tests pin the routing: the `Marine` flag selects the marine
builder; otherwise the `Seasonal` flag, a non-empty `Models` list, or a
non-empty weekly/monthly metric slice selects the seasonal builder
("basic seasonal via models", "weekly metrics", "monthly metrics" and the
`// Triggers seasonal logic` Get test); otherwise the forecast/archive
builder runs. -/
def Client.unifiedUrl (c : Client) (o : Options) (now : GoTime) : String :=
  if o.marine then c.marineUrl o
  else if o.seasonal || decide (o.models ≠ []) || hasWeekly o || hasMonthly o then
    c.seasonalUrl o
  else c.url o now

/-- The host selected by the unified builder (same routing as
`Client.unifiedUrl`, exposed for the routing theorems). -/
def Client.unifiedHost (c : Client) (o : Options) (now : GoTime) : String :=
  if o.marine then c.withCustomer c.marineHost
  else if o.seasonal || decide (o.models ≠ []) || hasWeekly o || hasMonthly o then
    c.withCustomer c.seasonalHost
  else c.withCustomer
    (if Client.isHistorical o now then "archive-" ++ c.host else c.host)

/-- The path selected by the unified builder. -/
def Client.unifiedPath (o : Options) (now : GoTime) : String :=
  if o.marine then "/v1/marine"
  else if o.seasonal || decide (o.models ≠ []) || hasWeekly o || hasMonthly o then
    "/v1/seasonal"
  else if Client.isHistorical o now then "/v1/archive" else "/v1/forecast"

end Head

namespace OM

/-- `orderedQuery` of the `openmateo` revision: a key list in `Set` order
plus a value map (modelled as an association list updated on `Set`). -/
structure orderedQuery where
  keys : List String
  values : List (String × String)

/-- `newOrderedQuery()`. -/
def newOrderedQuery : orderedQuery := { keys := [], values := [] }

/-- Map update for `o.values[key] = value`. -/
def setValue (l : List (String × String)) (key value : String) : List (String × String) :=
  (key, value) :: l.filter (fun p => p.1 ≠ key)

/-- `orderedQuery.Set`: append the key and store the value. -/
def orderedQuery.set (q : orderedQuery) (key value : String) : orderedQuery :=
  { keys := q.keys ++ [key], values := setValue q.values key value }

/-- `orderedQuery.Encode`: `key=value` fragments in `Set` order joined by
`&`, with no escaping. -/
def orderedQuery.encode (q : orderedQuery) : String :=
  stringsJoin (q.keys.map (fun k => k ++ "=" ++ ((q.values.lookup k).getD ""))) "&"

end OM

/-- `WeatherCodeMap`: WMO weather codes and their descriptions (Go map,
modelled as an association list with distinct keys). -/
def WeatherCodeMap : List (Int × String) :=
  [(0, "Clear sky"),
   (1, "Mainly clear"),
   (2, "Partly cloudy"),
   (3, "Overcast"),
   (45, "Fog"),
   (48, "Depositing rime fog"),
   (51, "Drizzle: Light intensity"),
   (53, "Drizzle: Moderate intensity"),
   (55, "Drizzle: Dense intensity"),
   (56, "Freezing Drizzle: Light intensity"),
   (57, "Freezing Drizzle: Dense intensity"),
   (61, "Rain: Slight intensity"),
   (63, "Rain: Moderate intensity"),
   (65, "Rain: Heavy intensity"),
   (66, "Freezing Rain: Light intensity"),
   (67, "Freezing Rain: Heavy intensity"),
   (71, "Snow fall: Slight intensity"),
   (73, "Snow fall: Moderate intensity"),
   (75, "Snow fall: Heavy intensity"),
   (77, "Snow grains"),
   (80, "Rain showers: Slight"),
   (81, "Rain showers: Moderate"),
   (82, "Rain showers: Violent"),
   (85, "Snow showers: Slight"),
   (86, "Snow showers: Heavy"),
   (95, "Thunderstorm: Slight or moderate"),
   (96, "Thunderstorm with slight hail"),
   (99, "Thunderstorm with heavy hail")]

/-- `DescribeCode`: the description mapped to the code, else "Unknown code". -/
def DescribeCode (code : Int) : String :=
  match WeatherCodeMap.lookup code with
  | some desc => desc
  | none => "Unknown code"

/-- `hourlyMetrics` (options.go): the metrics `NewMetrics` accepts for
`"hourly"`. -/
def hourlyMetrics : List Metric :=
  ["temperature_2m", "relative_humidity_2m", "dew_point_2m",
   "apparent_temperature", "precipitation_probability", "precipitation",
   "rain", "showers", "snowfall", "snow_depth", "weather_code",
   "pressure_msl", "surface_pressure", "cloud_cover", "cloud_cover_low",
   "cloud_cover_mid", "cloud_cover_high", "evapotranspiration", "visibility",
   "et0_fao_evapotranspiration", "vapour_pressure_deficit", "wind_speed_10m",
   "wind_speed_80m", "wind_speed_120m", "wind_speed_180m",
   "wind_direction_10m", "wind_direction_80m", "wind_direction_120m",
   "wind_direction_180m", "wind_gusts_10m", "temperature_80m",
   "temperature_120m", "temperature_180m", "soil_temperature_0cm",
   "soil_temperature_6cm", "soil_temperature_18cm", "soil_temperature_54cm",
   "soil_moisture_0_to_1cm", "soil_moisture_1_to_3cm",
   "soil_moisture_9_to_27cm", "soil_moisture_3_to_9cm"]

/-- `currentMetrics` (options.go): the metrics `NewMetrics` accepts for
`"current"`. -/
def currentMetrics : List Metric :=
  ["temperature_2m", "relative_humidity_2m", "is_day",
   "apparent_temperature", "precipitation", "rain", "showers", "snowfall",
   "weather_code", "cloud_cover", "pressure_msl", "surface_pressure",
   "wind_speed_10m", "wind_direction_10m", "wind_gusts_10m"]

/-- `dailyMetrics` (options.go): the metrics `NewMetrics` accepts for
`"daily"`. -/
def dailyMetrics : List Metric :=
  ["weather_code", "temperature_2m_max", "temperature_2m_min",
   "apparent_temperature_max", "apparent_temperature_min", "sunrise",
   "sunset", "sunshine_duration", "daylight_duration", "uv_index_max",
   "uv_index_clear_sky_max", "rain_sum", "showers_sum", "snowfall_sum",
   "precipitation_sum", "precipitation_hours",
   "precipitation_probability_max", "wind_speed_10m_max",
   "wind_gusts_10m_max", "wind_direction_10m_dominant",
   "shortwave_radiation_sum", "et0_fao_evapotranspiration"]

/-- The `allowed` list `NewMetrics`'s switch selects for a metric type
(`nil` — here `[]` — for an unrecognised type, the switch having no
default case). -/
def allowedFor (metricType : String) : List Metric :=
  if metricType == "hourly" then hourlyMetrics
  else if metricType == "daily" then dailyMetrics
  else if metricType == "current" then currentMetrics
  else []

/-- The validation loop of `NewMetrics`: the first metric outside `allowed`
aborts with `invalid for <type> metrics: <metric> ` (trailing space as in
the source), otherwise the metrics are re-appended in order. -/
def validateMetrics (metricType : String) (allowed : List Metric) :
    List Metric → Except String (List Metric)
  | [] => .ok []
  | m :: rest =>
    if allowed.contains m then
      (validateMetrics metricType allowed rest).map (fun r => m :: r)
    else
      .error ("invalid for " ++ metricType ++ " metrics: " ++ m ++ " ")

/-- `NewMetrics(metricType, metrics...)` (options.go): `"weekly"` and
`"monthly"` return the argument slice unvalidated; the other recognised
types validate against their allowed list; an unrecognised type leaves
`allowed` nil so every metric is rejected. -/
def NewMetrics (metricType : String) (ms : List Metric) :
    Except String (List Metric) :=
  if metricType == "weekly" then .ok ms
  else if metricType == "monthly" then .ok ms
  else validateMetrics metricType (allowedFor metricType) ms

namespace V2

/-- The decoded response payload of `Get`.  Only the top-level request
echo matters to the verified claims; the per-interval unit and value
records are carried opaquely by the abstracted JSON decoder. -/
structure WeatherData where
  latitude : GoFloat
  longitude : GoFloat
  generationtimeMs : GoFloat
  utcOffsetSeconds : Int
  timezone : String
  timezoneAbbreviation : String
  elevation : GoFloat

/-- An `http.Request` as `Get` builds it: method, URL and the
`User-Agent` header it sets. -/
structure Request where
  method : String
  url : String
  userAgent : String

/-- An `http.Response` as `Get` reads it: status code and body. -/
structure Response where
  statusCode : Nat
  body : String

/-- The external collaborators of `Get`, abstracted: `http.NewRequest`
(fallible construction), the transport's `Do`, and the JSON decoder —
all out of scope per the spec, supplied as an environment. -/
structure HTTPEnv where
  newRequest : String → String → Except String Request
  send : Request → Except String Response
  decode : String → Except String WeatherData

/-- `req.Header.Set("User-Agent", c.UserAgent)`. -/
def setUserAgent (req : Request) (ua : String) : Request :=
  { req with userAgent := ua }

/-- `Client.Get` of `units.go`: build the request for `c.url(o)`, set the
`User-Agent` header, perform the GET, reject any status other than 200
with `server http error: <code>`, then decode the body; each failure
returns immediately as a single wrapped error. -/
def Client.Get (c : Client) (o : Options) (env : HTTPEnv) (now : GoTime) :
    Except String WeatherData :=
  match env.newRequest "GET" (c.url o now) with
  | .error e => .error ("creating request: " ++ e)
  | .ok req =>
    match env.send (setUserAgent req c.UserAgent) with
    | .error e => .error ("sending request: " ++ e)
    | .ok res =>
      if res.statusCode ≠ 200 then
        .error ("server http error: " ++ toString res.statusCode)
      else
        match env.decode res.body with
        | .error e => .error ("decoding response: " ++ e)
        | .ok wd => .ok wd

end V2

/-- An instant used as `time.Now()` in the concrete checks
(2025-10-11 00:00:00 UTC). -/
def sampleNow : GoTime := ⟨1760140800000000000⟩

/-- 2025-01-01 00:00:00 UTC, more than 90 days before `sampleNow`. -/
def oldStart : GoTime := ⟨1735689600000000000⟩

/-- 2025-10-09 00:00:00 UTC, two days before `sampleNow`. -/
def recentStart : GoTime := ⟨1759968000000000000⟩

/-- Coordinates-only options with an old explicit start date. -/
def c1OldOpts : V2.Options :=
  { V2.Options.onlyCoords ⟨"37.77"⟩ ⟨"-122.41"⟩ with start := oldStart }

/-- Coordinates-only options with a recent explicit start date. -/
def c1RecentOpts : V2.Options :=
  { V2.Options.onlyCoords ⟨"37.77"⟩ ⟨"-122.41"⟩ with start := recentStart }

/-- The options of the `TestURL_Seasonal` case "basic seasonal via models":
only coordinates and a weather-model identifier, both routing flags unset. -/
def c2OptsModels : Head.Options :=
  { Head.Options.zero with
    models := ["ecmwf_seas5"],
    latitude := ⟨"52.52"⟩, longitude := ⟨"13.41"⟩ }

/-- The same options with the `Models` list emptied. -/
def c2OptsNoModels : Head.Options := { c2OptsModels with models := [] }

/-- The options of the `TestURL_Seasonal` case "weekly metrics": only a
weekly metric slice, both routing flags unset and no models. -/
def c2OptsWeekly : Head.Options :=
  { Head.Options.zero with weeklyMetrics := some ["temperature_2m_mean"] }

/-- The options of the `TestURL_Marine` case "basic marine via flag". -/
def c2OptsMarine : Head.Options :=
  { Head.Options.zero with
    marine := true,
    latitude := ⟨"52.52"⟩, longitude := ⟨"13.41"⟩ }

/-- V2 options selecting every non-default unit. -/
def c5OptsV2 : V2.Options :=
  { V2.Options.onlyCoords ⟨"1"⟩ ⟨"2"⟩ with
    temperatureUnit := V2.Fahrenheit, windspeedUnit := V2.MPH,
    precipitationUnit := V2.IN }

/-- Head options selecting explicit unit strings. -/
def c5OptsHead : Head.Options :=
  { Head.Options.zero with
    temperatureUnit := Head.Fahrenheit, windspeedUnit := Head.MPH,
    precipitationUnit := Head.IN }

/-- A metric slice with a duplicate, for the no-deduplication check. -/
def dupMetrics : Metrics := ["temperature_2m", "weather_code", "temperature_2m"]

/-- V2 options carrying `dupMetrics` on every interval the V2 builder reads. -/
def c6OptsV2 : V2.Options :=
  { V2.Options.onlyCoords ⟨"1"⟩ ⟨"2"⟩ with
    hourlyMetrics := some dupMetrics, dailyMetrics := some dupMetrics,
    currentMetrics := some dupMetrics }

/-- Head options carrying `dupMetrics` on the seasonal intervals. -/
def c6OptsHead : Head.Options :=
  { Head.Options.zero with
    weeklyMetrics := some dupMetrics,
    monthlyMetrics := some dupMetrics }

/-- A decoded payload for the concrete `Get` checks. -/
def sampleWeatherData : V2.WeatherData :=
  { latitude := ⟨"52.52"⟩, longitude := ⟨"13.41"⟩, generationtimeMs := ⟨"1"⟩,
    utcOffsetSeconds := 0, timezone := "GMT", timezoneAbbreviation := "GMT",
    elevation := ⟨"0"⟩ }

/-- An environment whose transport succeeds with HTTP status 201 Created (a
2xx status) and a body the decoder accepts. -/
def env201 : V2.HTTPEnv :=
  { newRequest := fun method u => .ok { method := method, url := u, userAgent := "" },
    send := fun _ => .ok { statusCode := 201, body := "null" },
    decode := fun _ => .ok sampleWeatherData }

/-- An environment whose transport succeeds with HTTP status 200 and a body
the decoder accepts. -/
def env200 : V2.HTTPEnv :=
  { env201 with send := fun _ => .ok { statusCode := 200, body := "null" } }

/-!  Helper lemmas about the query sections. -/

theorem filterKey_nil (k : String) : filterKey [] k = [] := rfl

theorem filterKey_append (l₁ l₂ : List (String × String)) (k : String) :
    filterKey (l₁ ++ l₂) k = filterKey l₁ k ++ filterKey l₂ k :=
  List.filter_append l₁ l₂

theorem filterKey_pair (key val k : String) :
    filterKey [(key, val)] k = if key == k then [(key, val)] else [] := by
  by_cases h : key == k <;> simp [filterKey, List.filter, h]

theorem filterKey_cons (p : String × String) (l : List (String × String)) (k : String) :
    filterKey (p :: l) k = (if p.1 == k then [p] else []) ++ filterKey l k := by
  by_cases h : p.1 == k <;> simp [filterKey, List.filter_cons, h]

theorem filterKey_kvIf (c : Prop) [Decidable c] (key val k : String) :
    filterKey (kvIf c key val) k = if key == k then kvIf c key val else [] := by
  unfold kvIf
  split
  · exact filterKey_pair key val k
  · simp [filterKey]

theorem filterKey_kvMetrics (m : Option Metrics) (key k : String) :
    filterKey (kvMetrics m key) k = if key == k then kvMetrics m key else [] := by
  unfold kvMetrics
  cases m with
  | none => simp [filterKey]
  | some l =>
    by_cases he : Metrics.encode l ≠ ""
    · simp only [if_pos he]
      exact filterKey_pair key (Metrics.encode l) k
    · simp only [if_neg he]
      simp [filterKey]

theorem lookup_eq_none_of_not_mem_keys :
    ∀ (l : List (Int × String)) (code : Int),
      code ∉ l.map Prod.fst → l.lookup code = none := by
  intro l code h
  induction l with
  | nil => rfl
  | cons p t ih =>
    obtain ⟨k, v⟩ := p
    simp only [List.map_cons, List.mem_cons, not_or] at h
    have hk : (code == k) = false := beq_eq_false_iff_ne.mpr h.1
    simp [List.lookup, hk, ih h.2]

theorem validateMetrics_ok (t : String) (allowed : List Metric) :
    ∀ (ms : List Metric), (∀ m ∈ ms, allowed.contains m = true) →
      validateMetrics t allowed ms = .ok ms := by
  intro ms
  induction ms with
  | nil => intro _; rfl
  | cons m rest ih =>
    intro h
    have hm : m ∈ allowed := List.elem_iff.mp (h m (by simp))
    have hrest := ih (fun x hx => h x (by simp [hx]))
    simp [validateMetrics, hm, hrest, Except.map]

theorem validateMetrics_err (t : String) (allowed : List Metric) :
    ∀ (ms : List Metric), (∃ m ∈ ms, allowed.contains m = false) →
      ∃ e, validateMetrics t allowed ms = .error e := by
  intro ms
  induction ms with
  | nil =>
    rintro ⟨m, hm, _⟩
    cases hm
  | cons a rest ih =>
    rintro ⟨m, hm, hc⟩
    by_cases ha : allowed.contains a = true
    · have ha' : a ∈ allowed := List.elem_iff.mp ha
      rcases List.mem_cons.mp hm with rfl | hmr
      · rw [ha] at hc
        cases hc
      · obtain ⟨e, he⟩ := ih ⟨m, hmr, hc⟩
        exact ⟨e, by simp [validateMetrics, ha', he, Except.map]⟩
    · have ha' : a ∉ allowed := fun hmem => ha (List.elem_iff.mpr hmem)
      exact ⟨"invalid for " ++ t ++ " metrics: " ++ a ++ " ",
        by simp [validateMetrics, ha']⟩

/-- C1: a non-zero explicit start date older than the freshness threshold
(`forecastHistoryLimit`) routes the url builder to the archive variant
(`archive-`-prefixed host, path `/v1/archive`); an absent (zero) start
date, or one within the threshold, leaves the plain forecast host and
the `/v1/forecast` path. -/
theorem claim_c1 (c : V2.Client) (o : V2.Options) (now : GoTime) :
    (o.start.isZero = false → V2.forecastHistoryLimit < timeSince now o.start →
      V2.Client.urlPath o now = "/v1/archive" ∧
      V2.Client.selectedHost c o now = "archive-" ++ c.host) ∧
    (o.start.isZero = true ∨ timeSince now o.start ≤ V2.forecastHistoryLimit →
      V2.Client.urlPath o now = "/v1/forecast" ∧
      V2.Client.selectedHost c o now = c.host) := by
  constructor
  · intro hz hgt
    have hist : V2.Client.isHistorical o now = true := by
      simp [V2.Client.isHistorical, hz, hgt]
    simp [V2.Client.urlPath, V2.Client.selectedHost, hist]
  · intro h
    have hist : V2.Client.isHistorical o now = false := by
      rcases h with h | h
      · simp [V2.Client.isHistorical, h]
      · simp [V2.Client.isHistorical, not_lt.mpr h]
    simp [V2.Client.urlPath, V2.Client.selectedHost, hist]

/-- Witness for C1 at concrete dates: a start of 2025-01-01 is historical
at 2025-10-11 and routes to the archive variant; a start of 2025-10-09 is
within the 90-day threshold and routes to the forecast variant. -/
theorem claim_c1_witness :
    c1OldOpts.start.isZero = false ∧
    V2.forecastHistoryLimit < timeSince sampleNow c1OldOpts.start ∧
    timeSince sampleNow c1RecentOpts.start ≤ V2.forecastHistoryLimit ∧
    V2.Client.urlPath c1OldOpts sampleNow = "/v1/archive" ∧
    V2.Client.selectedHost V2.NewClient c1OldOpts sampleNow = "archive-api.open-meteo.com" ∧
    V2.Client.urlPath c1RecentOpts sampleNow = "/v1/forecast" ∧
    V2.Client.selectedHost V2.NewClient c1RecentOpts sampleNow = "api.open-meteo.com" := by
  refine ⟨by decide, by decide, by decide, ?_, ?_, ?_, ?_⟩
  · exact ((claim_c1 V2.NewClient c1OldOpts sampleNow).1 (by decide) (by decide)).1
  · exact (((claim_c1 V2.NewClient c1OldOpts sampleNow).1 (by decide) (by decide)).2).trans (by decide)
  · exact ((claim_c1 V2.NewClient c1RecentOpts sampleNow).2 (Or.inr (by decide))).1
  · exact (((claim_c1 V2.NewClient c1RecentOpts sampleNow).2 (Or.inr (by decide))).2).trans (by decide)

/-- C9: `DescribeCode` is total: each of the 28 codes of `WeatherCodeMap`
(whose keys are distinct) maps to exactly its description, and every other
integer, negative values included, maps to "Unknown code". -/
theorem claim_c9 :
    WeatherCodeMap.length = 28 ∧
    (WeatherCodeMap.map Prod.fst).Nodup ∧
    (∀ p ∈ WeatherCodeMap, DescribeCode p.1 = p.2) ∧
    (∀ code : Int, code ∉ WeatherCodeMap.map Prod.fst →
      DescribeCode code = "Unknown code") := by
  refine ⟨by decide, by decide, by decide, ?_⟩
  intro code h
  unfold DescribeCode
  rw [lookup_eq_none_of_not_mem_keys WeatherCodeMap code h]

/-- Witness for C9 at the unmapped codes 100 and -1. -/
theorem claim_c9_witness :
    ((100 : Int) ∉ WeatherCodeMap.map Prod.fst) ∧
    DescribeCode 100 = "Unknown code" ∧
    ((-1 : Int) ∉ WeatherCodeMap.map Prod.fst) ∧
    DescribeCode (-1) = "Unknown code" :=
  ⟨by decide, claim_c9.2.2.2 100 (by decide), by decide,
   claim_c9.2.2.2 (-1) (by decide)⟩

/-- C10: `NewMetrics` returns the supplied metrics unchanged and in order
with no error for "weekly" and "monthly"; for "hourly", "daily" and
"current" it errors exactly when some supplied metric is outside the
corresponding allowed list and otherwise returns the supplied metrics in
their original order; for any other metric type it succeeds only on the
empty list and errors on every non-empty list. -/
theorem claim_c10 (mt : String) (ms : List Metric) :
    ((mt = "weekly" ∨ mt = "monthly") → NewMetrics mt ms = .ok ms) ∧
    ((mt = "hourly" ∨ mt = "daily" ∨ mt = "current") →
      (((∀ m ∈ ms, m ∈ allowedFor mt) → NewMetrics mt ms = .ok ms) ∧
       ((∃ m ∈ ms, m ∉ allowedFor mt) →
          ∃ e, NewMetrics mt ms = Except.error e))) ∧
    (mt ∉ (["hourly", "daily", "current", "weekly", "monthly"] : List String) →
      ((ms = [] → NewMetrics mt ms = .ok []) ∧
       (ms ≠ [] → ∃ e, NewMetrics mt ms = Except.error e))) := by
  refine ⟨?_, ?_, ?_⟩
  · rintro (rfl | rfl) <;> simp [NewMetrics]
  · have main : ∀ h : (mt = "hourly" ∨ mt = "daily" ∨ mt = "current"),
        NewMetrics mt ms = validateMetrics mt (allowedFor mt) ms := by
      rintro (rfl | rfl | rfl) <;> simp [NewMetrics]
    intro h
    rw [main h]
    constructor
    · intro hall
      exact validateMetrics_ok mt (allowedFor mt) ms
        (fun m hm => List.elem_iff.mpr (hall m hm))
    · rintro ⟨m, hm, hnm⟩
      refine validateMetrics_err mt (allowedFor mt) ms ⟨m, hm, ?_⟩
      cases hcm : (allowedFor mt).contains m with
      | false => rfl
      | true => exact absurd (List.elem_iff.mp hcm) hnm
  · intro hmt
    simp only [List.mem_cons, List.not_mem_nil, or_false, not_or] at hmt
    obtain ⟨h1, h2, h3, h4, h5⟩ := hmt
    have e1 : (mt == "hourly") = false := beq_eq_false_iff_ne.mpr h1
    have e2 : (mt == "daily") = false := beq_eq_false_iff_ne.mpr h2
    have e3 : (mt == "current") = false := beq_eq_false_iff_ne.mpr h3
    have e4 : (mt == "weekly") = false := beq_eq_false_iff_ne.mpr h4
    have e5 : (mt == "monthly") = false := beq_eq_false_iff_ne.mpr h5
    have hNM : NewMetrics mt ms = validateMetrics mt [] ms := by
      simp [NewMetrics, allowedFor, e1, e2, e3, e4, e5]
    constructor
    · rintro rfl
      rw [hNM]
      rfl
    · intro hne
      obtain ⟨a, rest, rfl⟩ := List.exists_cons_of_ne_nil hne
      rw [hNM]
      exact validateMetrics_err mt [] (a :: rest) ⟨a, by simp, rfl⟩

/-- Witness for C10: a valid hourly list passes unchanged in order, an
invalid one errors, weekly lists pass unvalidated, and an unknown metric
type rejects a non-empty list. -/
theorem claim_c10_witness :
    NewMetrics "hourly" ["temperature_2m", "rain"] = .ok ["temperature_2m", "rain"] ∧
    (∃ e, NewMetrics "hourly" ["wave_height"] = Except.error e) ∧
    NewMetrics "weekly" ["anything_at_all"] = .ok ["anything_at_all"] ∧
    (∃ e, NewMetrics "bogus" ["temperature_2m"] = Except.error e) := by
  refine ⟨?_, ?_, ?_, ?_⟩
  · exact ((claim_c10 "hourly" ["temperature_2m", "rain"]).2.1
      (Or.inl rfl)).1 (by decide)
  · exact ((claim_c10 "hourly" ["wave_height"]).2.1 (Or.inl rfl)).2
      ⟨"wave_height", by decide, by decide⟩
  · exact (claim_c10 "weekly" ["anything_at_all"]).1 (Or.inl rfl)
  · exact ((claim_c10 "bogus" ["temperature_2m"]).2.2 (by decide)).2 (by decide)

/-- C7 (amended): `Client.Get` returns an error exactly when request
construction fails, the transport fails, the response status is not 200
(`http.StatusOK`, the error carrying the status code), or JSON decoding
fails; each error propagates immediately as a single wrapped error value
with no retry, and otherwise `Get` returns the decoded `WeatherData`. -/
theorem claim_c7 (c : V2.Client) (o : V2.Options) (env : V2.HTTPEnv) (now : GoTime) :
    (∀ e, env.newRequest "GET" (V2.Client.url c o now) = .error e →
      V2.Client.Get c o env now = .error ("creating request: " ++ e)) ∧
    (∀ req, env.newRequest "GET" (V2.Client.url c o now) = .ok req →
      ((∀ e, env.send (V2.setUserAgent req c.UserAgent) = .error e →
          V2.Client.Get c o env now = .error ("sending request: " ++ e)) ∧
       (∀ res, env.send (V2.setUserAgent req c.UserAgent) = .ok res →
         ((res.statusCode ≠ 200 →
             V2.Client.Get c o env now =
               .error ("server http error: " ++ toString res.statusCode)) ∧
          (res.statusCode = 200 →
            ((∀ e, env.decode res.body = .error e →
                V2.Client.Get c o env now = .error ("decoding response: " ++ e)) ∧
             (∀ wd, env.decode res.body = .ok wd →
                V2.Client.Get c o env now = .ok wd))))))) := by
  refine ⟨?_, ?_⟩
  · intro e he
    simp [V2.Client.Get, he]
  · intro req hreq
    refine ⟨?_, ?_⟩
    · intro e he
      simp [V2.Client.Get, hreq, he]
    · intro res hres
      refine ⟨?_, ?_⟩
      · intro hne
        simp [V2.Client.Get, hreq, hres, hne]
      · intro h200
        refine ⟨?_, ?_⟩
        · intro e he
          simp [V2.Client.Get, hreq, hres, h200, he]
        · intro wd hwd
          simp [V2.Client.Get, hreq, hres, h200, hwd]

/-- Witness for C7: in an environment where every step succeeds with
status 200, `Get` returns the decoded payload. -/
theorem claim_c7_witness :
    env200.decode "null" = .ok sampleWeatherData ∧
    V2.Client.Get V2.NewClient c1RecentOpts env200 sampleNow = .ok sampleWeatherData := by
  refine ⟨rfl, ?_⟩
  exact ((((claim_c7 V2.NewClient c1RecentOpts env200 sampleNow).2
      { method := "GET", url := V2.Client.url V2.NewClient c1RecentOpts sampleNow,
        userAgent := "" } rfl).2
      { statusCode := 200, body := "null" } rfl).2 rfl).2 sampleWeatherData rfl

/-- C7 counterexample: with a transport answering HTTP 201 Created — a 2xx
status — and a decoder that accepts the body, `Get` still returns an error
carrying the status code, so the claim's "error exactly on construction
failure, transport failure, non-2xx status, or decode failure" is false:
the code rejects every status other than 200. -/
theorem claim_c7_counterexample :
    env201.decode "null" = .ok sampleWeatherData ∧
    (200 ≤ 201 ∧ 201 < 300) ∧
    V2.Client.Get V2.NewClient c1RecentOpts env201 sampleNow =
      Except.error "server http error: 201" :=
  ⟨rfl, ⟨by decide, by decide⟩, rfl⟩

/-- C8: with the current time held fixed, the url builder is a pure
deterministic function of the client configuration and the options: equal
clients and equal options yield character-for-character identical URL
strings (mutation-freedom holds by construction of the embedding, the
source function only reading its receiver and argument); the `openmateo`
revision's `orderedQuery.Encode` is likewise deterministic. -/
theorem claim_c8 (c c' : V2.Client) (o o' : V2.Options) (now : GoTime)
    (q q' : OM.orderedQuery) :
    (c = c' → o = o' → V2.Client.url c o now = V2.Client.url c' o' now) ∧
    (q = q' → OM.orderedQuery.encode q = OM.orderedQuery.encode q') := by
  constructor
  · rintro rfl rfl
    rfl
  · rintro rfl
    rfl

/-- Witness for C8 at concrete equal inputs. -/
theorem claim_c8_witness :
    V2.Client.url V2.NewClient c1RecentOpts sampleNow =
      V2.Client.url V2.NewClient c1RecentOpts sampleNow ∧
    OM.orderedQuery.encode OM.newOrderedQuery =
      OM.orderedQuery.encode OM.newOrderedQuery :=
  ⟨(claim_c8 V2.NewClient V2.NewClient c1RecentOpts c1RecentOpts sampleNow
      OM.newOrderedQuery OM.newOrderedQuery).1 rfl rfl,
   (claim_c8 V2.NewClient V2.NewClient c1RecentOpts c1RecentOpts sampleNow
      OM.newOrderedQuery OM.newOrderedQuery).2 rfl⟩

/-- C2 (amended): the marine product line is selected only by the explicit
`Marine` flag, which takes precedence in host construction; the seasonal
product line is selected by the explicit `Seasonal` flag or inferred from
a non-empty `Models` list or a non-empty weekly/monthly metric slice;
hourly, daily and current metric sets never affect host or path selection. -/
theorem claim_c2 (c : Head.Client) (o : Head.Options) (now : GoTime) :
    (o.marine = true →
      Head.Client.unifiedHost c o now = Head.Client.withCustomer c c.marineHost ∧
      Head.Client.unifiedPath o now = "/v1/marine" ∧
      Head.Client.unifiedUrl c o now = Head.Client.marineUrl c o) ∧
    (o.marine = false →
      (o.seasonal || decide (o.models ≠ []) || Head.hasWeekly o || Head.hasMonthly o) = true →
      Head.Client.unifiedHost c o now = Head.Client.withCustomer c c.seasonalHost ∧
      Head.Client.unifiedPath o now = "/v1/seasonal" ∧
      Head.Client.unifiedUrl c o now = Head.Client.seasonalUrl c o) ∧
    (o.marine = false →
      (o.seasonal || decide (o.models ≠ []) || Head.hasWeekly o || Head.hasMonthly o) = false →
      Head.Client.unifiedUrl c o now = Head.Client.url c o now) ∧
    (∀ hm dm cm,
      Head.Client.unifiedHost c
          { o with hourlyMetrics := hm, dailyMetrics := dm, currentMetrics := cm } now =
        Head.Client.unifiedHost c o now ∧
      Head.Client.unifiedPath
          { o with hourlyMetrics := hm, dailyMetrics := dm, currentMetrics := cm } now =
        Head.Client.unifiedPath o now) := by
  refine ⟨?_, ?_, ?_, ?_⟩
  · intro hm
    refine ⟨?_, ?_, ?_⟩
    · unfold Head.Client.unifiedHost
      rw [if_pos hm]
    · unfold Head.Client.unifiedPath
      rw [if_pos hm]
    · unfold Head.Client.unifiedUrl
      rw [if_pos hm]
  · intro hm ht
    have hnm : ¬ (o.marine = true) := by simp [hm]
    refine ⟨?_, ?_, ?_⟩
    · unfold Head.Client.unifiedHost
      rw [if_neg hnm, if_pos ht]
    · unfold Head.Client.unifiedPath
      rw [if_neg hnm, if_pos ht]
    · unfold Head.Client.unifiedUrl
      rw [if_neg hnm, if_pos ht]
  · intro hm ht
    have hnm : ¬ (o.marine = true) := by simp [hm]
    have hnt : ¬ ((o.seasonal || decide (o.models ≠ []) ||
        Head.hasWeekly o || Head.hasMonthly o) = true) := by
      intro h
      rw [h] at ht
      exact absurd ht (by decide)
    unfold Head.Client.unifiedUrl
    rw [if_neg hnm, if_neg hnt]
  · intro hm dm cm
    exact ⟨rfl, rfl⟩

/-- Witness for C2 (amended) at the "basic marine via flag" test options. -/
theorem claim_c2_witness :
    c2OptsMarine.marine = true ∧
    Head.Client.unifiedPath c2OptsMarine sampleNow = "/v1/marine" ∧
    Head.Client.unifiedUrl Head.NewClient c2OptsMarine sampleNow =
      Head.Client.marineUrl Head.NewClient c2OptsMarine := by
  refine ⟨rfl, ?_, ?_⟩
  · exact ((claim_c2 Head.NewClient c2OptsMarine sampleNow).1 rfl).2.1
  · exact ((claim_c2 Head.NewClient c2OptsMarine sampleNow).1 rfl).2.2

/-- C2 counterexample: with both routing flags unset, supplying a weather
model routes the request to the seasonal host (the "basic seasonal via
models" test vector), and removing the model routes the identical request
to the forecast host; a weekly metric slice alone does the same (the
"weekly metrics" test vector).  Product-line selection is therefore
inferred from the supplied models and metric sets, contrary to the claim. -/
theorem claim_c2_counterexample :
    c2OptsModels.seasonal = false ∧ c2OptsModels.marine = false ∧
    Head.Client.unifiedUrl Head.NewClient c2OptsModels sampleNow =
      "https://seasonal-api.open-meteo.com/v1/seasonal?latitude=52.52&longitude=13.41&models=ecmwf_seas5" ∧
    Head.Client.unifiedUrl Head.NewClient c2OptsNoModels sampleNow =
      "https://api.open-meteo.com/v1/forecast?latitude=52.52&longitude=13.41" ∧
    c2OptsWeekly.seasonal = false ∧ c2OptsWeekly.marine = false ∧
    c2OptsWeekly.models = [] ∧
    Head.Client.unifiedUrl Head.NewClient c2OptsWeekly sampleNow =
      "https://seasonal-api.open-meteo.com/v1/seasonal?latitude=0&longitude=0&weekly=temperature_2m_mean" :=
  ⟨rfl, rfl, rfl, rfl, rfl, rfl, rfl, rfl⟩

theorem strLt_lon_lat : strLt "longitude" "latitude" = false := by decide

/-- C3: a client configured with a non-empty API key prefixes the host with
`customer-` in every product line — the `units.go` url (forecast and
archive variants alike) and the head revision's forecast, seasonal and
marine builders — and the built query carries exactly one `apikey` pair
holding the configured key. -/
theorem claim_c3 (c : V2.Client) (o : V2.Options) (now : GoTime)
    (hc : Head.Client) (ho : Head.Options)
    (hk : c.apiKey ≠ "") (hk2 : hc.apiKey ≠ "") :
    (∃ r, V2.Client.urlHost c o now = "customer-" ++ r) ∧
    filterKey (V2.Client.queryPairs c o) "apikey" = [("apikey", c.apiKey)] ∧
    (∀ h, ∃ r, Head.Client.withCustomer hc h = "customer-" ++ r) ∧
    filterKey (Head.Client.urlPairs hc ho) "apikey" = [("apikey", hc.apiKey)] ∧
    filterKey (Head.Client.seasonalPairs hc ho) "apikey" = [("apikey", hc.apiKey)] ∧
    filterKey (Head.Client.marinePairs hc ho) "apikey" = [("apikey", hc.apiKey)] := by
  refine ⟨⟨V2.Client.selectedHost c o now, ?_⟩, ?_, fun h => ⟨h, ?_⟩, ?_, ?_, ?_⟩
  · simp [V2.Client.urlHost, V2.Client.withCustomer, hk]
  · simp only [V2.Client.queryPairs, filterKey_append, filterKey_kvIf,
      filterKey_kvMetrics, filterKey_cons, filterKey_nil]
    simp [kvIf, hk]
  · simp [Head.Client.withCustomer, hk2]
  · simp only [Head.Client.urlPairs, Head.Client.commonPairs, filterKey_append,
      filterKey_kvIf, filterKey_kvMetrics, filterKey_cons, filterKey_nil]
    simp [kvIf, hk2]
  · simp only [Head.Client.seasonalPairs, Head.Client.commonPairs, filterKey_append,
      filterKey_kvIf, filterKey_kvMetrics, filterKey_cons, filterKey_nil]
    simp [kvIf, hk2]
  · simp only [Head.Client.marinePairs, Head.Client.commonPairs, filterKey_append,
      filterKey_kvIf, filterKey_kvMetrics, filterKey_cons, filterKey_nil]
    simp [kvIf, hk2]

/-- Witness for C3 with the key "testkey" on all four product lines. -/
theorem claim_c3_witness :
    V2.Client.urlHost (V2.NewClientWithKey "testkey") c1OldOpts sampleNow =
      "customer-archive-api.open-meteo.com" ∧
    filterKey
      (V2.Client.queryPairs (V2.NewClientWithKey "testkey") c1OldOpts)
      "apikey" = [("apikey", "testkey")] ∧
    Head.Client.withCustomer (Head.NewClientWithKey "testkey")
      (Head.NewClientWithKey "testkey").marineHost =
      "customer-marine-api.open-meteo.com" ∧
    filterKey
      (Head.Client.seasonalPairs (Head.NewClientWithKey "testkey") Head.Options.zero)
      "apikey" = [("apikey", "testkey")] := by
  have h := claim_c3 (V2.NewClientWithKey "testkey") c1OldOpts sampleNow
    (Head.NewClientWithKey "testkey") Head.Options.zero (by decide) (by decide)
  exact ⟨by decide, h.2.1, by decide, h.2.2.2.2.1⟩

/-- C4: with only latitude and longitude set in `Options` and no API key on
the client, the built query consists of exactly the `latitude` and
`longitude` pairs, and the encoded (key-sorted) query lists those two keys
in that order with no other key. -/
theorem claim_c4 (c : V2.Client) (lat lon : GoFloat) (hk : c.apiKey = "") :
    V2.Client.queryPairs c (V2.Options.onlyCoords lat lon) =
      [("latitude", lat.render), ("longitude", lon.render)] ∧
    (sortPairs (V2.Client.queryPairs c (V2.Options.onlyCoords lat lon))).map
      Prod.fst = ["latitude", "longitude"] := by
  have h1 : V2.Client.queryPairs c (V2.Options.onlyCoords lat lon) =
      [("latitude", lat.render), ("longitude", lon.render)] := by
    simp [V2.Client.queryPairs, V2.Options.onlyCoords, kvIf, kvMetrics, hk,
      goZeroTime, GoTime.isZero]
  refine ⟨h1, ?_⟩
  rw [h1]
  simp [sortPairs, insertPair, strLt_lon_lat]

/-- Witness for C4 at the coordinates of the repository's tests. -/
theorem claim_c4_witness :
    V2.NewClient.apiKey = "" ∧
    (sortPairs (V2.Client.queryPairs V2.NewClient
        (V2.Options.onlyCoords ⟨"52.52"⟩ ⟨"13.41"⟩))).map Prod.fst =
      ["latitude", "longitude"] :=
  ⟨rfl, (claim_c4 V2.NewClient ⟨"52.52"⟩ ⟨"13.41"⟩ rfl).2⟩

/-- C5: in the head revision (string unit fields, shared
`encodeCommonOptions`), a non-empty unit field puts exactly one
corresponding key in the built query, holding that unit string (the
canonical constants being "celsius"/"fahrenheit", "kmh"/"ms"/"mph"/"kn",
"mm"/"in"), and an empty (zero-value) field leaves the key out entirely;
in the `units.go` revision (integer enums rendered by `String()`, gated by
`> 0`), a positive unit enum puts exactly one corresponding key holding
its rendering and the zero value leaves the key out — so no default unit
value is ever written to the wire. -/
theorem claim_c5 (hc : Head.Client) (ho : Head.Options)
    (c : V2.Client) (o : V2.Options) :
    ((ho.temperatureUnit ≠ "" →
        filterKey (Head.Client.urlPairs hc ho) "temperature_unit" =
          [("temperature_unit", ho.temperatureUnit)]) ∧
     (ho.temperatureUnit = "" →
        filterKey (Head.Client.urlPairs hc ho) "temperature_unit" = []) ∧
     (ho.windspeedUnit ≠ "" →
        filterKey (Head.Client.urlPairs hc ho) "windspeed_unit" =
          [("windspeed_unit", ho.windspeedUnit)]) ∧
     (ho.windspeedUnit = "" →
        filterKey (Head.Client.urlPairs hc ho) "windspeed_unit" = []) ∧
     (ho.precipitationUnit ≠ "" →
        filterKey (Head.Client.urlPairs hc ho) "precipitation_unit" =
          [("precipitation_unit", ho.precipitationUnit)]) ∧
     (ho.precipitationUnit = "" →
        filterKey (Head.Client.urlPairs hc ho) "precipitation_unit" = [])) ∧
    ((0 < o.temperatureUnit →
        filterKey (V2.Client.queryPairs c o) "temperature_unit" =
          [("temperature_unit", V2.TemperatureUnit.render o.temperatureUnit)]) ∧
     (¬ 0 < o.temperatureUnit →
        filterKey (V2.Client.queryPairs c o) "temperature_unit" = []) ∧
     (0 < o.windspeedUnit →
        filterKey (V2.Client.queryPairs c o) "windspeed_unit" =
          [("windspeed_unit", V2.WindSpeedUnit.render o.windspeedUnit)]) ∧
     (¬ 0 < o.windspeedUnit →
        filterKey (V2.Client.queryPairs c o) "windspeed_unit" = []) ∧
     (0 < o.precipitationUnit →
        filterKey (V2.Client.queryPairs c o) "precipitation_unit" =
          [("precipitation_unit", V2.PrecipitationUnit.render o.precipitationUnit)]) ∧
     (¬ 0 < o.precipitationUnit →
        filterKey (V2.Client.queryPairs c o) "precipitation_unit" = [])) := by
  constructor
  · refine ⟨?_, ?_, ?_, ?_, ?_, ?_⟩ <;>
      · intro h
        simp only [Head.Client.urlPairs, Head.Client.commonPairs, filterKey_append,
          filterKey_kvIf, filterKey_kvMetrics, filterKey_cons, filterKey_nil]
        simp [kvIf, h]
  · refine ⟨?_, ?_, ?_, ?_, ?_, ?_⟩ <;>
      · intro h
        simp only [V2.Client.queryPairs, filterKey_append,
          filterKey_kvIf, filterKey_kvMetrics, filterKey_cons, filterKey_nil]
        simp [kvIf, h]

/-- Witness for C5: Fahrenheit/mph/inches set the three keys with their
canonical strings in both revisions, and coordinate-only options omit
every unit key. -/
theorem claim_c5_witness :
    c5OptsHead.temperatureUnit = Head.Fahrenheit ∧ Head.Fahrenheit ≠ "" ∧
    filterKey (Head.Client.urlPairs Head.NewClient c5OptsHead) "temperature_unit" =
      [("temperature_unit", "fahrenheit")] ∧
    filterKey (Head.Client.urlPairs Head.NewClient c5OptsHead) "windspeed_unit" =
      [("windspeed_unit", "mph")] ∧
    filterKey (Head.Client.urlPairs Head.NewClient Head.Options.zero) "temperature_unit" = [] ∧
    c5OptsV2.temperatureUnit = V2.Fahrenheit ∧ (0 : Int) < V2.Fahrenheit ∧
    filterKey (V2.Client.queryPairs V2.NewClient c5OptsV2) "temperature_unit" =
      [("temperature_unit", "fahrenheit")] ∧
    filterKey (V2.Client.queryPairs V2.NewClient c5OptsV2) "precipitation_unit" =
      [("precipitation_unit", "in")] ∧
    filterKey (V2.Client.queryPairs V2.NewClient
      (V2.Options.onlyCoords ⟨"1"⟩ ⟨"2"⟩)) "windspeed_unit" = [] := by
  have h1 := claim_c5 Head.NewClient c5OptsHead V2.NewClient c5OptsV2
  have h2 := claim_c5 Head.NewClient Head.Options.zero V2.NewClient
    (V2.Options.onlyCoords ⟨"1"⟩ ⟨"2"⟩)
  exact ⟨rfl, by decide, h1.1.1 (by decide), h1.1.2.2.1 (by decide),
    h2.1.2.1 rfl, rfl, by decide, h1.2.1 (by decide), h1.2.2.2.2.2.1 (by decide),
    h2.2.2.2.2.1 (by decide)⟩

/-- C6: metric slices serialize by `Metrics.encode` as their strings joined
by commas in exactly the supplied order — the empty slice to "", a
singleton to itself, and a cons to the head, a comma and the encoded tail,
with no deduplication and no sorting — and the serialized slice appears in
the built query under exactly one key for its interval: `hourly`, `daily`
and `current` in the `units.go` builder, `weekly` and `monthly` in the
seasonal builder. -/
theorem claim_c6 (m : Metrics) :
    (Metrics.encode ([] : Metrics) = "" ∧ ∀ a : Metric, Metrics.encode [a] = a) ∧
    (∀ a : Metric, m ≠ [] →
      Metrics.encode (a :: m) = a ++ "," ++ Metrics.encode m) ∧
    (∀ (c : V2.Client) (o : V2.Options),
      (o.hourlyMetrics = some m → Metrics.encode m ≠ "" →
        filterKey (V2.Client.queryPairs c o) "hourly" =
          [("hourly", Metrics.encode m)]) ∧
      (o.dailyMetrics = some m → Metrics.encode m ≠ "" →
        filterKey (V2.Client.queryPairs c o) "daily" =
          [("daily", Metrics.encode m)]) ∧
      (o.currentMetrics = some m → Metrics.encode m ≠ "" →
        filterKey (V2.Client.queryPairs c o) "current" =
          [("current", Metrics.encode m)])) ∧
    (∀ (hc : Head.Client) (ho : Head.Options),
      (ho.weeklyMetrics = some m → Metrics.encode m ≠ "" →
        filterKey (Head.Client.seasonalPairs hc ho) "weekly" =
          [("weekly", Metrics.encode m)]) ∧
      (ho.monthlyMetrics = some m → Metrics.encode m ≠ "" →
        filterKey (Head.Client.seasonalPairs hc ho) "monthly" =
          [("monthly", Metrics.encode m)])) := by
  refine ⟨⟨rfl, fun a => rfl⟩, ?_, ?_, ?_⟩
  · intro a hne
    cases m with
    | nil => exact absurd rfl hne
    | cons b r => rfl
  · intro c o
    refine ⟨?_, ?_, ?_⟩ <;>
      · intro hset henc
        simp only [V2.Client.queryPairs, filterKey_append,
          filterKey_kvIf, filterKey_kvMetrics, filterKey_cons, filterKey_nil]
        simp [kvMetrics, hset, henc]
  · intro hc ho
    refine ⟨?_, ?_⟩ <;>
      · intro hset henc
        simp only [Head.Client.seasonalPairs, Head.Client.commonPairs, filterKey_append,
          filterKey_kvIf, filterKey_kvMetrics, filterKey_cons, filterKey_nil]
        simp [kvMetrics, hset, henc]

/-- Witness for C6 with a duplicated, unsorted metric slice. -/
theorem claim_c6_witness :
    Metrics.encode dupMetrics = "temperature_2m,weather_code,temperature_2m" ∧
    c6OptsV2.hourlyMetrics = some dupMetrics ∧
    filterKey (V2.Client.queryPairs V2.NewClient c6OptsV2) "hourly" =
      [("hourly", "temperature_2m,weather_code,temperature_2m")] ∧
    filterKey (V2.Client.queryPairs V2.NewClient c6OptsV2) "current" =
      [("current", "temperature_2m,weather_code,temperature_2m")] ∧
    filterKey (Head.Client.seasonalPairs Head.NewClient c6OptsHead) "weekly" =
      [("weekly", "temperature_2m,weather_code,temperature_2m")] := by
  have h := claim_c6 dupMetrics
  exact ⟨rfl, rfl,
    (h.2.2.1 V2.NewClient c6OptsV2).1 rfl (by decide),
    (h.2.2.1 V2.NewClient c6OptsV2).2.2 rfl (by decide),
    (h.2.2.2 Head.NewClient c6OptsHead).1 rfl (by decide)⟩
